import Mathlib

/-!
Shallow embedding of the responsive navigation widget in
`src/assets/js/app.js` of the SDB blog repository.

The script wires two jQuery event handlers inside a document-ready block:

* a click handler on `.mobile-nav-btn` that runs `$('nav').fadeToggle('fast')`
  (toggling the navigation panel's visibility) and
  `$(this).toggleClass('open')` (flipping the `open` class on the button);
* a resize handler on `window` that, when `$(window).width() >= 992`, sets
  the panel's `display` to `block` and removes the button's `open` class,
  and otherwise, when `$(window).width() <= 991`, sets the panel's
  `display` to `none`.

We model the observable DOM state as two booleans: whether the navigation
panel is visually displayed and whether the toggle button carries the
`open` class.  Viewport widths are integers (`ℤ`).  The fade animation is
abstracted to its end state (shown/hidden), as the spec treats the fade as
cosmetic.  A second model (`DomState`) additionally records whether each
of the two target elements exists in the document, reflecting jQuery's
behaviour of silently skipping operations on empty selections.
-/

/-- Observable UI state of the navigation widget: `navDisplayed` is true when
the `nav` panel is visually displayed (its `display` is not `none`), and
`btnOpen` is true when the `.mobile-nav-btn` element carries the `open`
class. -/
structure NavigationUIState where
  navDisplayed : Bool
  btnOpen : Bool
deriving DecidableEq, Repr

/-- The click handler on `.mobile-nav-btn`: `$('nav').fadeToggle('fast')`
flips the panel's visibility and `$(this).toggleClass('open')` flips the
`open` class. -/
def onToggleClick (s : NavigationUIState) : NavigationUIState :=
  { navDisplayed := !s.navDisplayed, btnOpen := !s.btnOpen }

/-- The test of the resize handler's first branch: `$(window).width() >= 992`. -/
def wideBranch (w : ℤ) : Bool := 992 ≤ w

/-- The test of the resize handler's second branch: `$(window).width() <= 991`. -/
def narrowBranch (w : ℤ) : Bool := w ≤ 991

/-- The resize handler on `window`, at current viewport width `w`:
if `w >= 992`, set the panel's `display` to `block` and remove the button's
`open` class; else if `w <= 991`, set the panel's `display` to `none`
(leaving the `open` class alone). -/
def onViewportResize (w : ℤ) (s : NavigationUIState) : NavigationUIState :=
  if wideBranch w then
    { navDisplayed := true, btnOpen := false }
  else if narrowBranch w then
    { s with navDisplayed := false }
  else
    s

/-- The two kinds of events the widget reacts to: a click on the toggle
control, and a window resize (carrying the new viewport width). -/
inductive Event where
  | click : Event
  | resize : ℤ → Event
deriving DecidableEq, Repr

/-- Full world state: the current viewport width together with the UI state.
A click does not change the width; a resize sets it and runs the resize
handler. -/
structure World where
  width : ℤ
  ui : NavigationUIState
deriving DecidableEq, Repr

/-- One event step on the world state. -/
def worldStep (e : Event) (w : World) : World :=
  match e with
  | Event.click => { w with ui := onToggleClick w.ui }
  | Event.resize x => { width := x, ui := onViewportResize x w.ui }

/-- Run a sequence of events, oldest first. -/
def worldRun (evs : List Event) (w : World) : World :=
  evs.foldl (fun s e => worldStep e s) w

/-- The initial UI state on page load in the narrow regime: panel closed,
no `open` class on the button. -/
def uiClosed : NavigationUIState := { navDisplayed := false, btnOpen := false }

/-- Document state that also records whether each target element exists:
`navPresent` and `btnPresent` say whether `$('nav')` and
`$('.mobile-nav-btn')` select a non-empty collection.  jQuery operations on
an empty collection are silent no-ops, and a click handler attached to an
empty collection is never attached, so no click event can fire on a missing
button. -/
structure DomState where
  navPresent : Bool
  btnPresent : Bool
  navDisplayed : Bool
  btnOpen : Bool
deriving DecidableEq, Repr

/-- A click event on `.mobile-nav-btn` against the full document model.
If the button is missing, the handler was never attached, so nothing
happens.  Otherwise `$('nav').fadeToggle('fast')` toggles the panel when it
exists (a no-op on an empty selection) and `$(this).toggleClass('open')`
flips the button's class. -/
def clickEventDom (d : DomState) : DomState :=
  if d.btnPresent then
    { d with
      navDisplayed := if d.navPresent then !d.navDisplayed else d.navDisplayed,
      btnOpen := !d.btnOpen }
  else
    d

/-- A resize event at width `w` against the full document model.
`$('nav').css(...)` and `$('.mobile-nav-btn').removeClass('open')` are
silent no-ops when the respective selection is empty. -/
def resizeEventDom (w : ℤ) (d : DomState) : DomState :=
  if wideBranch w then
    { d with
      navDisplayed := if d.navPresent then true else d.navDisplayed,
      btnOpen := if d.btnPresent then false else d.btnOpen }
  else if narrowBranch w then
    { d with navDisplayed := if d.navPresent then false else d.navDisplayed }
  else
    d

/-! ### Helper lemmas -/

/-- Every integer width satisfies exactly one of the two branch tests. -/
lemma wideBranch_eq_not_narrowBranch (w : ℤ) : wideBranch w = !narrowBranch w := by
  simp only [wideBranch, narrowBranch]
  by_cases h : 992 ≤ w
  · have h2 : ¬ w ≤ 991 := by omega
    simp [h, h2]
  · have h2 : w ≤ 991 := by omega
    simp [h, h2]

/-- On a wide width the resize handler forces the fully reset state. -/
lemma onViewportResize_wide {w : ℤ} (h : 992 ≤ w) (s : NavigationUIState) :
    onViewportResize w s = { navDisplayed := true, btnOpen := false } := by
  simp [onViewportResize, wideBranch, h]

/-- On a narrow width the resize handler hides the panel and touches
nothing else. -/
lemma onViewportResize_narrow {w : ℤ} (h : w ≤ 991) (s : NavigationUIState) :
    onViewportResize w s = { s with navDisplayed := false } := by
  have h2 : ¬ (992 ≤ w) := by omega
  simp [onViewportResize, wideBranch, narrowBranch, h, h2]

/-- The panel's display after a resize depends on the width alone. -/
lemma onViewportResize_navDisplayed (w : ℤ) (s : NavigationUIState) :
    (onViewportResize w s).navDisplayed = wideBranch w := by
  by_cases h : 992 ≤ w
  · rw [onViewportResize_wide h]
    simp [wideBranch, h]
  · rw [onViewportResize_narrow (by omega)]
    simp [wideBranch, h]

/-- Two clicks cancel. -/
lemma onToggleClick_onToggleClick (s : NavigationUIState) :
    onToggleClick (onToggleClick s) = s := by
  simp [onToggleClick]

/-- Unfolding a run over an appended trace. -/
lemma worldRun_append (l₁ l₂ : List Event) (w : World) :
    worldRun (l₁ ++ l₂) w = worldRun l₂ (worldRun l₁ w) := by
  simp [worldRun, List.foldl_append]

/-- A run of `n` clicks iterates the click handler, leaving the width
unchanged. -/
lemma worldRun_replicate_click (n : ℕ) (w : World) :
    worldRun (List.replicate n Event.click) w =
      { w with ui := onToggleClick^[n] w.ui } := by
  induction n generalizing w with
  | zero => simp [worldRun]
  | succ n ih =>
    rw [List.replicate_succ]
    show worldRun (Event.click :: List.replicate n Event.click) w = _
    have hcons : worldRun (Event.click :: List.replicate n Event.click) w =
        worldRun (List.replicate n Event.click) (worldStep Event.click w) := by
      simp [worldRun]
    rw [hcons, ih]
    simp [worldStep, Function.iterate_succ_apply]

/-- Iterating the click handler only depends on the parity of the count. -/
lemma onToggleClick_iterate (n : ℕ) (s : NavigationUIState) :
    onToggleClick^[n] s = if n % 2 = 0 then s else onToggleClick s := by
  induction n generalizing s with
  | zero => simp
  | succ n ih =>
    rw [Function.iterate_succ_apply, ih]
    rcases Nat.even_or_odd n with he | ho
    · have h0 : n % 2 = 0 := Nat.even_iff.mp he
      have h1 : (n + 1) % 2 = 1 := by omega
      simp [h0, h1]
    · have h0 : n % 2 = 1 := Nat.odd_iff.mp ho
      have h1 : (n + 1) % 2 = 0 := by omega
      simp [h0, h1, onToggleClick_onToggleClick]

/-! ### Claims -/

/-- C1 counterexample: the claimed invariant fails on a reachable state.
Starting on a wide viewport with the panel shown, a resize to width 1000
followed by a click leaves the viewport wide (1000 ≥ 992) but hides the
panel and adds the `open` indicator class, because the click handler toggles
regardless of width. -/
theorem C1_counterexample :
    992 ≤ (worldRun [Event.resize 1000, Event.click]
        ⟨1000, ⟨true, false⟩⟩).width ∧
    (worldRun [Event.resize 1000, Event.click]
        ⟨1000, ⟨true, false⟩⟩).ui.navDisplayed = false ∧
    (worldRun [Event.resize 1000, Event.click]
        ⟨1000, ⟨true, false⟩⟩).ui.btnOpen = true := by
  decide

/-- C1 (amended): after any sequence of click and resize events whose most
recent event is a resize at a wide width (≥ 992), the navigation panel is
visually displayed and the toggle control's `open` indicator class is
absent; a click occurring after the last resize can break the invariant even
on a wide viewport. -/
theorem C1_wide_invariant_after_resize (evs : List Event) (w0 : World)
    (w : ℤ) (h : 992 ≤ w) :
    worldRun (evs ++ [Event.resize w]) w0 =
      { width := w, ui := { navDisplayed := true, btnOpen := false } } := by
  rw [worldRun_append]
  show worldStep (Event.resize w) (worldRun evs w0) = _
  simp [worldStep, onViewportResize_wide h]

/-- C1 witness: the amended invariant instantiated on a concrete trace. -/
theorem C1_wide_invariant_witness :
    992 ≤ (1200 : ℤ) ∧
    worldRun ([Event.click, Event.resize 300] ++ [Event.resize 1200])
        ⟨800, uiClosed⟩ =
      { width := 1200, ui := { navDisplayed := true, btnOpen := false } } :=
  ⟨by decide,
   C1_wide_invariant_after_resize [Event.click, Event.resize 300]
     ⟨800, uiClosed⟩ 1200 (by decide)⟩

/-- C2: for every viewport width ≥ 992 and every prior world state, after a
resize event fires the navigation panel's display is forced visible and the
toggle control's `open` indicator class is absent. -/
theorem C2_wide_resize_forces_visible (w : ℤ) (wd : World) (h : 992 ≤ w) :
    (worldStep (Event.resize w) wd).ui =
      { navDisplayed := true, btnOpen := false } ∧
    (worldStep (Event.resize w) wd).width = w := by
  refine ⟨?_, rfl⟩
  simp [worldStep, onViewportResize_wide h]

/-- C2 witness: instantiated at width 1200 from a collapsed-and-open prior
state. -/
theorem C2_wide_resize_witness :
    992 ≤ (1200 : ℤ) ∧
    ((worldStep (Event.resize 1200) ⟨500, ⟨false, true⟩⟩).ui =
        { navDisplayed := true, btnOpen := false } ∧
      (worldStep (Event.resize 1200) ⟨500, ⟨false, true⟩⟩).width = 1200) :=
  ⟨by decide, C2_wide_resize_forces_visible 1200 ⟨500, ⟨false, true⟩⟩ (by decide)⟩

/-- C3: for every viewport width ≤ 991 and every prior world state,
including a panel just opened by a click, after a resize event fires the
navigation panel is hidden. -/
theorem C3_narrow_resize_hides (w : ℤ) (wd : World) (h : w ≤ 991) :
    (worldStep (Event.resize w) wd).ui.navDisplayed = false := by
  simp [worldStep, onViewportResize_narrow h]

/-- C3 witness: instantiated at width 800 from a state where a click just
opened the panel. -/
theorem C3_narrow_resize_witness :
    (800 : ℤ) ≤ 991 ∧
    (worldStep (Event.resize 800)
        (worldStep Event.click ⟨800, uiClosed⟩)).ui.navDisplayed = false :=
  ⟨by decide,
   C3_narrow_resize_hides 800 (worldStep Event.click ⟨800, uiClosed⟩) (by decide)⟩

/-- C4: holding the viewport narrow (≤ 991), a run of `n` clicks from the
closed state leaves the panel open exactly when `n` is odd; moreover two
consecutive clicks restore any state, and each click flips (never sets)
both the panel visibility and the `open` indicator class. -/
theorem C4_click_parity (n : ℕ) (w : ℤ) (s : NavigationUIState)
    (h : w ≤ 991) :
    (worldRun (List.replicate n Event.click) ⟨w, uiClosed⟩).ui =
      (if n % 2 = 1 then { navDisplayed := true, btnOpen := true }
        else uiClosed) ∧
    (worldRun (List.replicate n Event.click) ⟨w, uiClosed⟩).width = w ∧
    onToggleClick (onToggleClick s) = s ∧
    (onToggleClick s).navDisplayed = !s.navDisplayed ∧
    (onToggleClick s).btnOpen = !s.btnOpen := by
  refine ⟨?_, ?_, onToggleClick_onToggleClick s, rfl, rfl⟩
  · rw [worldRun_replicate_click]
    show onToggleClick^[n] uiClosed = _
    rw [onToggleClick_iterate]
    rcases Nat.mod_two_eq_zero_or_one n with h0 | h1
    · have : ¬ n % 2 = 1 := by omega
      simp [h0, this]
    · have : ¬ n % 2 = 0 := by omega
      simp [h1, this, onToggleClick, uiClosed]
  · rw [worldRun_replicate_click]

/-- C4 witness: three clicks at width 500 leave the panel open, and the
algebraic clauses hold at a concrete state. -/
theorem C4_click_parity_witness :
    (500 : ℤ) ≤ 991 ∧
    ((worldRun (List.replicate 3 Event.click) ⟨500, uiClosed⟩).ui =
        (if 3 % 2 = 1 then { navDisplayed := true, btnOpen := true }
          else uiClosed) ∧
      (worldRun (List.replicate 3 Event.click) ⟨500, uiClosed⟩).width = 500 ∧
      onToggleClick (onToggleClick ⟨true, false⟩) = ⟨true, false⟩ ∧
      (onToggleClick (⟨true, false⟩ : NavigationUIState)).navDisplayed =
        !(⟨true, false⟩ : NavigationUIState).navDisplayed ∧
      (onToggleClick (⟨true, false⟩ : NavigationUIState)).btnOpen =
        !(⟨true, false⟩ : NavigationUIState).btnOpen) :=
  ⟨by decide, C4_click_parity 3 500 ⟨true, false⟩ (by decide)⟩

/-- C5: the resize handler's branch tests are `width >= 992` and
`width <= 991`: width 992 is handled exactly like width 2000 and width 991
exactly like width 0, and every integer width satisfies exactly one of the
two tests, so no integer width is unhandled. -/
theorem C5_branch_totality (w : ℤ) (s : NavigationUIState) :
    onViewportResize 992 s = onViewportResize 2000 s ∧
    onViewportResize 991 s = onViewportResize 0 s ∧
    wideBranch 992 = true ∧ wideBranch 2000 = true ∧
    narrowBranch 991 = true ∧ narrowBranch 0 = true ∧
    wideBranch w = !narrowBranch w := by
  refine ⟨?_, ?_, by decide, by decide, by decide, by decide,
    wideBranch_eq_not_narrowBranch w⟩
  · rw [onViewportResize_wide (by decide), onViewportResize_wide (by decide)]
  · rw [onViewportResize_narrow (by decide), onViewportResize_narrow (by decide)]

/-- C6: any two sequences of resize events ending with a resize at the same
integer width leave the navigation panel's display in the same state, from
any two starting worlds: the resize handler recomputes the forced display
from the absolute current width alone and keeps no memory of previous
widths. -/
theorem C6_resize_flood_determinism (l₁ l₂ : List ℤ) (w : ℤ)
    (s₁ s₂ : World) :
    (worldRun (l₁.map Event.resize ++ [Event.resize w]) s₁).ui.navDisplayed =
    (worldRun (l₂.map Event.resize ++ [Event.resize w]) s₂).ui.navDisplayed := by
  rw [worldRun_append, worldRun_append]
  show (worldStep (Event.resize w) _).ui.navDisplayed =
    (worldStep (Event.resize w) _).ui.navDisplayed
  simp [worldStep, onViewportResize_navDisplayed]

/-- C7: processing a resize event is idempotent at a fixed width: running
the resize handler twice in a row at the same width yields the same panel
display and indicator state as running it once, because the handler
force-sets rather than toggles. -/
theorem C7_resize_idempotent (w : ℤ) (wd : World) :
    worldStep (Event.resize w) (worldStep (Event.resize w) wd) =
      worldStep (Event.resize w) wd := by
  by_cases h : 992 ≤ w
  · simp [worldStep, onViewportResize_wide h]
  · have h2 : w ≤ 991 := by omega
    simp [worldStep, onViewportResize_narrow h2]

/-- C8 counterexample: with the toggle button missing but the panel present,
a resize to width 500 still hides the panel, so the resize handler is not a
full no-op whenever one of the two elements is missing; likewise, with the
panel missing but the button present, a click still flips the button's
`open` class. -/
theorem C8_counterexample :
    resizeEventDom 500
        { navPresent := true, btnPresent := false,
          navDisplayed := true, btnOpen := false } ≠
      { navPresent := true, btnPresent := false,
        navDisplayed := true, btnOpen := false } ∧
    clickEventDom
        { navPresent := false, btnPresent := true,
          navDisplayed := false, btnOpen := false } ≠
      { navPresent := false, btnPresent := true,
        navDisplayed := false, btnOpen := false } := by
  decide

/-- C8 (amended): missing elements never crash the handlers, and every
operation targeting a missing element is a silent no-op on it: when both
elements are missing, both the click and the resize handler leave the whole
state unchanged; when only the panel is missing its display is never
touched; when only the button is missing the click handler is a complete
no-op (its handler was never attached) and the resize handler leaves the
button's class unchanged — but a handler may still update the element that
is present. -/
theorem C8_missing_elements (d : DomState) (w : ℤ) :
    (d.navPresent = false → d.btnPresent = false →
      clickEventDom d = d ∧ resizeEventDom w d = d) ∧
    (d.navPresent = false →
      (clickEventDom d).navDisplayed = d.navDisplayed ∧
      (resizeEventDom w d).navDisplayed = d.navDisplayed) ∧
    (d.btnPresent = false →
      clickEventDom d = d ∧ (resizeEventDom w d).btnOpen = d.btnOpen) := by
  obtain ⟨np, bp, nd, bo⟩ := d
  by_cases hw : 992 ≤ w
  · have hwb : wideBranch w = true := by simp [wideBranch, hw]
    refine ⟨?_, ?_, ?_⟩ <;> intros <;> cases np <;> cases bp <;>
      simp_all [clickEventDom, resizeEventDom, hwb]
  · have hwb : wideBranch w = false := by simp [wideBranch, hw]
    have hnb : narrowBranch w = true := by
      simp [narrowBranch]; omega
    refine ⟨?_, ?_, ?_⟩ <;> intros <;> cases np <;> cases bp <;>
      simp_all [clickEventDom, resizeEventDom, hwb, hnb]

/-- C8 witness: the amended statement instantiated with both elements
missing at width 500 — both handlers leave the state unchanged. -/
theorem C8_missing_elements_witness :
    clickEventDom
        { navPresent := false, btnPresent := false,
          navDisplayed := true, btnOpen := true } =
      { navPresent := false, btnPresent := false,
        navDisplayed := true, btnOpen := true } ∧
    resizeEventDom 500
        { navPresent := false, btnPresent := false,
          navDisplayed := true, btnOpen := true } =
      { navPresent := false, btnPresent := false,
        navDisplayed := true, btnOpen := true } :=
  (C8_missing_elements
    { navPresent := false, btnPresent := false,
      navDisplayed := true, btnOpen := true } 500).1 rfl rfl

/-- C9: frame effect of the narrow resize branch: at any width ≤ 991 the
resize handler leaves the toggle control's `open` indicator class unchanged
and only sets the panel's display to hidden, so an indicator shown before
the resize remains shown while the panel is hidden. -/
theorem C9_narrow_frame (w : ℤ) (s : NavigationUIState) (h : w ≤ 991) :
    (onViewportResize w s).btnOpen = s.btnOpen ∧
    (onViewportResize w s).navDisplayed = false := by
  rw [onViewportResize_narrow h]
  exact ⟨rfl, rfl⟩

/-- C9 witness: at width 500 with the indicator shown, after the resize the
indicator is still shown while the panel is hidden. -/
theorem C9_narrow_frame_witness :
    (500 : ℤ) ≤ 991 ∧
    ((onViewportResize 500 ⟨true, true⟩).btnOpen =
        (⟨true, true⟩ : NavigationUIState).btnOpen ∧
      (onViewportResize 500 ⟨true, true⟩).navDisplayed = false) :=
  ⟨by decide, C9_narrow_frame 500 ⟨true, true⟩ (by decide)⟩

/-- C10: the click handler never inspects the viewport width: at every
width — wide (≥ 992) included — a click flips the panel's visibility and
the `open` indicator class, and leaves the width unchanged. -/
theorem C10_click_ignores_width (w : ℤ) (s : NavigationUIState) :
    (worldStep Event.click ⟨w, s⟩).ui = onToggleClick s ∧
    (worldStep Event.click ⟨w, s⟩).width = w ∧
    (onToggleClick s).navDisplayed = !s.navDisplayed ∧
    (onToggleClick s).btnOpen = !s.btnOpen :=
  ⟨rfl, rfl, rfl, rfl⟩
